import Mathlib

/-!
# VideoToolbox RGB packet processor

A shallow embedding of `examples/protonect/src/vt_rgb_packet_processor.cpp`
(classes `VTFrame`, `VTRgbPacketProcessorImpl`, `VTRgbPacketProcessor`) and the
properties of it that the design document states.

Conventions of the embedding.

* Pointers and CoreFoundation handles are natural numbers, `0` being `NULL`.
* The pixel buffers that CoreVideo manages form an explicit heap
  (`CoreVideo`), threaded through every function that calls the CoreVideo API.
* Everything the platform decides (which handle a create call writes, how the
  decoder invokes its output callback, whether a lock is granted, how many
  seconds the timer measured) is an explicit argument of the function that
  makes the call.
* Every function returns, besides its result, the list of the API calls,
  listener calls and report lines it performs, in program order.  The CoreVideo
  calls record themselves on the state they operate on, so their recorded order
  is the order in which the heap was changed.
* `double` accumulators live in an arbitrary type `T` with an addition and a
  zero that is neutral for it (`AddZeroClass`), which is all that the
  properties below need of IEEE arithmetic on non-NaN samples.  The sample
  counter `timing_acc_n` only ever holds the integers `0 .. 100`, all exactly
  representable, and is a natural number.
-/

set_option linter.unusedVariables false
set_option linter.unusedSectionVars false

namespace libfreenect2

/-! ## Platform handles and status codes -/

/-- A CoreFoundation object reference (`CFTypeRef`); `0` is `NULL`. -/
abbrev CFTypeRef := Nat

/-- A `CVPixelBufferRef` (the same type as `CVImageBufferRef`); `0` is `NULL`. -/
abbrev CVPixelBufferRef := Nat

/-- An `OSStatus` result code; `0` is `noErr`. -/
abbrev OSStatus := Int

/-- A `CVReturn` result code; `0` is `kCVReturnSuccess`. -/
abbrev CVReturn := Int

def noErr : OSStatus := 0

def kCVReturnSuccess : CVReturn := 0

def kCVReturnInvalidArgument : CVReturn := -6661

/-- The codec type `kCMVideoCodecType_JPEG`, the four-character code `jpeg`. -/
def kCMVideoCodecType_JPEG : Nat := 1785750887

/-- The pixel format `kCVPixelFormatType_32BGRA`, the four-character code `BGRA`. -/
def kCVPixelFormatType_32BGRA : Int := 1111970369

/-! ## The CoreVideo pixel-buffer heap -/

/-- What CoreVideo keeps for one pixel buffer: the number of references held on
it, the number of base-address locks held on it, and where its pixels start. -/
structure PixelBufferState where
  retainCount : Nat
  lockCount : Nat
  baseAddress : Nat
deriving DecidableEq, Repr

/-- The pixel buffers known to CoreVideo, by handle. -/
abbrev CoreVideo := CVPixelBufferRef → PixelBufferState

/-- Replace the record of one buffer. -/
def CoreVideo.set (w : CoreVideo) (pb : CVPixelBufferRef) (s : PixelBufferState) : CoreVideo :=
  fun h => if h = pb then s else w h

/-- The CoreVideo calls that `VTFrame` and the decoder callback make. -/
inductive CVCall where
  | retain (pb : CVPixelBufferRef)
  | release (pb : CVPixelBufferRef)
  | lockBaseAddress (pb : CVPixelBufferRef)
  | unlockBaseAddress (pb : CVPixelBufferRef)
  | getBaseAddress (pb : CVPixelBufferRef)
deriving DecidableEq, Repr

/-- The heap together with the CoreVideo calls made so far, oldest first.  Every
CoreVideo call takes this pair and returns it with the heap updated and itself
appended, so the order of the recorded calls is the order in which the heap was
operated on. -/
abbrev CVState := CoreVideo × List CVCall

/-- The call `CVPixelBufferRetain`: NULL-safe; adds one reference and returns its
argument. -/
def CVPixelBufferRetain (s : CVState) (pb : CVPixelBufferRef) : CVState × CVPixelBufferRef :=
  let called := s.2 ++ [CVCall.retain pb]
  if pb = 0 then ((s.1, called), 0)
  else ((s.1.set pb { s.1 pb with retainCount := (s.1 pb).retainCount + 1 }, called), pb)

/-- The call `CVPixelBufferRelease`: NULL-safe; drops one reference. -/
def CVPixelBufferRelease (s : CVState) (pb : CVPixelBufferRef) : CVState :=
  let called := s.2 ++ [CVCall.release pb]
  if pb = 0 then (s.1, called)
  else (s.1.set pb { s.1 pb with retainCount := (s.1 pb).retainCount - 1 }, called)

/-- The call `CVPixelBufferLockBaseAddress(pb, 0)`.  On `NULL` it reports an invalid
argument.  On a buffer, `granted` is the status CoreVideo answers with: success
adds one lock, anything else leaves the buffer as it was. -/
def CVPixelBufferLockBaseAddress (s : CVState) (pb : CVPixelBufferRef) (granted : CVReturn) :
    CVState × CVReturn :=
  let called := s.2 ++ [CVCall.lockBaseAddress pb]
  if pb = 0 then ((s.1, called), kCVReturnInvalidArgument)
  else if granted = kCVReturnSuccess then
    ((s.1.set pb { s.1 pb with lockCount := (s.1 pb).lockCount + 1 }, called), kCVReturnSuccess)
  else ((s.1, called), granted)

/-- The call `CVPixelBufferUnlockBaseAddress(pb, 0)`: removes one lock; an error, and no
change, on `NULL` or on a buffer that holds no lock. -/
def CVPixelBufferUnlockBaseAddress (s : CVState) (pb : CVPixelBufferRef) : CVState × CVReturn :=
  let called := s.2 ++ [CVCall.unlockBaseAddress pb]
  if pb = 0 then ((s.1, called), kCVReturnInvalidArgument)
  else if (s.1 pb).lockCount = 0 then ((s.1, called), kCVReturnInvalidArgument)
  else ((s.1.set pb { s.1 pb with lockCount := (s.1 pb).lockCount - 1 }, called),
        kCVReturnSuccess)

/-- The call `CVPixelBufferGetBaseAddress`: the start of the pixels, `NULL` for `NULL`;
the address is a property of the buffer and is the same locked or not. -/
def CVPixelBufferGetBaseAddress (s : CVState) (pb : CVPixelBufferRef) : CVState × Nat :=
  ((s.1, s.2 ++ [CVCall.getBaseAddress pb]), if pb = 0 then 0 else (s.1 pb).baseAddress)

/-! ## Frames -/

/-- Modelled from the spec: `Frame` is declared in the frame-listener header,
which is not among the sources; the design document lists its fields as width,
height, bytes per pixel, a pointer to the pixels, timestamp and sequence. -/
structure Frame where
  width : Nat
  height : Nat
  bytes_per_pixel : Nat
  data : Nat
  timestamp : Nat
  sequence : Nat
deriving DecidableEq, Repr

/-- Modelled from the spec: the enumeration `Frame::Type`, of which the
processor uses `Color`. -/
inductive Frame.Type where
  | Color
  | Ir
  | Depth
deriving DecidableEq, Repr

/-- The four-argument `Frame` constructor that `VTFrame` calls; `timestamp` and
`sequence` are not arguments of it and are assigned by `process` afterwards. -/
def Frame.construct (width height bytes_per_pixel data : Nat) : Frame :=
  { width := width, height := height, bytes_per_pixel := bytes_per_pixel, data := data,
    timestamp := 0, sequence := 0 }

/-- The class `VTFrame : public Frame` with its member `pixelBuffer`. -/
structure VTFrame extends Frame where
  pixelBuffer : CVPixelBufferRef
deriving DecidableEq, Repr

/-- The method `VTFrame::lockPixelBuffer`: calls `CVPixelBufferLockBaseAddress`, drops the
status it returns, and returns the handle it was given. -/
def VTFrame.lockPixelBuffer (s : CVState) (_pixelBuffer : CVPixelBufferRef) (granted : CVReturn) :
    CVState × CVPixelBufferRef :=
  let locked := CVPixelBufferLockBaseAddress s _pixelBuffer granted
  (locked.1, _pixelBuffer)

/-- The constructor `VTFrame::VTFrame`: the base `Frame` is built over
`CVPixelBufferGetBaseAddress(lockPixelBuffer(pixelBuffer))`, then the handle is
stored.  It returns the heap it leaves, the frame, and the calls it made. -/
def VTFrame.construct (w : CoreVideo) (width height bytes_per_pixel : Nat)
    (pixelBuffer : CVPixelBufferRef) (granted : CVReturn) : CoreVideo × VTFrame × List CVCall :=
  let locked := VTFrame.lockPixelBuffer (w, []) pixelBuffer granted
  let base := CVPixelBufferGetBaseAddress locked.1 locked.2
  (base.1.1,
   { toFrame := Frame.construct width height bytes_per_pixel base.2, pixelBuffer := pixelBuffer },
   base.1.2)

/-- The destructor `VTFrame::~VTFrame`: unlock, then release.  It returns the
heap it leaves and the calls it made. -/
def VTFrame.destruct (w : CoreVideo) (self : VTFrame) : CoreVideo × List CVCall :=
  let unlocked := CVPixelBufferUnlockBaseAddress (w, []) self.pixelBuffer
  let released := CVPixelBufferRelease unlocked.1 self.pixelBuffer
  released

/-! ## Everything observable that the processor does -/

/-- One observable step: a platform call, a call of the listener, or a line
written to standard output. -/
inductive Event (T : Type) where
  | CMVideoFormatDescriptionCreate (codecType : Nat) (width height : Int)
  | CFDictionaryCreate (numValues : Nat)
  | CFNumberCreate (value : Int)
  | VTDecompressionSessionCreate (format decoderSpecification outputConfiguration : CFTypeRef)
  | CMBlockBufferCreateWithMemoryBlock (memoryBlock : Nat) (blockLength : Nat)
  | CMSampleBufferCreateReady (blockBuffer : CFTypeRef) (format : CFTypeRef) (sampleSize : Nat)
  | VTDecompressionSessionDecodeFrame (decoder : CFTypeRef) (sampleBuffer : CFTypeRef)
  | cv (call : CVCall)
  | onNewFrame (listener : Nat) (type : Frame.Type) (frame : VTFrame)
  | CFRelease (cf : CFTypeRef)
  | report (timing_acc : T) (timing_acc_n : Nat)
deriving DecidableEq, Repr

/-! ## `VTRgbPacketProcessorImpl` -/

/-- Modelled from the spec: `Timer` is declared outside the sources; the design
document only says that a sample is started and stopped.  The model counts the
calls of `start` and of `stop`; the seconds that `stop` returns are an argument. -/
structure Timer where
  starts : Nat
  stops : Nat
deriving DecidableEq, Repr

def Timer.start (self : Timer) : Timer :=
  { self with starts := self.starts + 1 }

def Timer.stop {T : Type} (self : Timer) (elapsed : T) : Timer × T :=
  ({ self with stops := self.stops + 1 }, elapsed)

/-- The members of `class VTRgbPacketProcessorImpl`.  The source declares
`timing_acc_n` as a `double`; it only ever holds the integers `0 .. 100`. -/
structure VTRgbPacketProcessorImpl (T : Type) where
  format : CFTypeRef
  decoder : CFTypeRef
  timing_acc : T
  timing_acc_n : Nat
  timer : Timer
deriving DecidableEq, Repr

/-- What the platform answers to the two create calls of the constructor: the
status each returns and the handle each leaves in its output argument. -/
structure CreateEnv where
  formatStatus : OSStatus
  format : CFTypeRef
  decoderSpecification : CFTypeRef
  outputConfiguration : CFTypeRef
  decoderStatus : OSStatus
  decoder : CFTypeRef
deriving DecidableEq, Repr

/-- What the owner of a processor would receive if its construction failed: which
create call failed, and with what status.  A C++ constructor can only fail by
throwing; the constructors below never do. -/
inductive ConstructionFailure where
  | formatDescription (status : OSStatus)
  | decompressionSession (status : OSStatus)
deriving DecidableEq, Repr

/-- The constructor `VTRgbPacketProcessorImpl::VTRgbPacketProcessorImpl`.  The
body zeroes the accumulators, creates the format description for JPEG at
1920 x 1080, builds the decoder specification (one entry, hardware decoding
enabled) and the output configuration (pixel format, width, height), creates the
session with `decodeFrame` as its callback and releases the two dictionaries.
Neither status is stored or tested and the body has no `throw`, so it always
completes; `format` and `decoder` hold whatever the two calls left there. -/
def VTRgbPacketProcessorImpl.construct (T : Type) [AddZeroClass T] (env : CreateEnv) :
    Except ConstructionFailure (VTRgbPacketProcessorImpl T × List (Event T)) :=
  let width : Int := 1920
  let height : Int := 1080
  let format := env.format
  let decoderSpecification := env.decoderSpecification
  let pixelFormat : Int := kCVPixelFormatType_32BGRA
  let outputConfiguration := env.outputConfiguration
  let decoder := env.decoder
  Except.ok
    ({ format := format, decoder := decoder, timing_acc := 0, timing_acc_n := 0,
       timer := { starts := 0, stops := 0 } },
     [Event.CMVideoFormatDescriptionCreate kCMVideoCodecType_JPEG width height,
      Event.CFDictionaryCreate 1,
      Event.CFNumberCreate pixelFormat,
      Event.CFNumberCreate width,
      Event.CFNumberCreate height,
      Event.CFDictionaryCreate 3,
      Event.VTDecompressionSessionCreate format decoderSpecification outputConfiguration,
      Event.CFRelease decoderSpecification,
      Event.CFRelease outputConfiguration])

/-- The static method `VTRgbPacketProcessorImpl::decodeFrame`, the decoder output callback.
`sourceFrameRefCon` points at the result slot, whose content is passed in and
whose new content is returned; `status` is not looked at. -/
def VTRgbPacketProcessorImpl.decodeFrame (w : CoreVideo) (slot : CVPixelBufferRef)
    (status : OSStatus) (pixelBuffer : CVPixelBufferRef) :
    CoreVideo × CVPixelBufferRef × List CVCall :=
  let retained := CVPixelBufferRetain (w, []) pixelBuffer
  (retained.1.1, retained.2, retained.1.2)

/-- The method `VTRgbPacketProcessorImpl::startTiming`. -/
def VTRgbPacketProcessorImpl.startTiming {T : Type} (self : VTRgbPacketProcessorImpl T) :
    VTRgbPacketProcessorImpl T :=
  { self with timer := self.timer.start }

/-- The method `VTRgbPacketProcessorImpl::stopTiming`; `elapsed` is what `timer.stop()`
returns.  The report line prints `timing_acc / timing_acc_n` in milliseconds and
its inverse; the event keeps the two numbers it is computed from. -/
def VTRgbPacketProcessorImpl.stopTiming {T : Type} [AddZeroClass T]
    (self : VTRgbPacketProcessorImpl T) (elapsed : T) :
    VTRgbPacketProcessorImpl T × List (Event T) :=
  let stopped := self.timer.stop elapsed
  let timing_acc := self.timing_acc + stopped.2
  let timing_acc_n := self.timing_acc_n + 1
  if timing_acc_n ≥ 100 then
    ({ self with timing_acc := 0, timing_acc_n := 0, timer := stopped.1 },
     [Event.report timing_acc timing_acc_n])
  else
    ({ self with timing_acc := timing_acc, timing_acc_n := timing_acc_n, timer := stopped.1 }, [])

/-! ## `VTRgbPacketProcessor` -/

/-- Modelled from the spec: `RgbPacket` is declared in the packet-processor
header, which is not among the sources; the design document lists bytes, length,
timestamp and sequence, and the source reads exactly these four members. -/
structure RgbPacket where
  sequence : Nat
  timestamp : Nat
  jpeg_buffer : Nat
  jpeg_buffer_length : Nat
deriving DecidableEq, Repr

/-- The processor: `listener_` (inherited, `0` when none is registered) and
`impl_`. -/
structure VTRgbPacketProcessor (T : Type) where
  listener_ : Nat
  impl_ : VTRgbPacketProcessorImpl T
deriving DecidableEq, Repr

/-- The constructor `VTRgbPacketProcessor::VTRgbPacketProcessor`, which is
`impl_(new VTRgbPacketProcessorImpl())`: a failure of the inner constructor
would be passed on.  No listener is registered yet. -/
def VTRgbPacketProcessor.construct (T : Type) [AddZeroClass T] (env : CreateEnv) :
    Except ConstructionFailure (VTRgbPacketProcessor T × List (Event T)) :=
  match VTRgbPacketProcessorImpl.construct T env with
  | Except.ok r => Except.ok ({ listener_ := 0, impl_ := r.1 }, r.2)
  | Except.error e => Except.error e

/-- Modelled from the spec: `setFrameListener` of the base class
`RgbPacketProcessor`, which is not among the sources; it registers the listener. -/
def VTRgbPacketProcessor.setFrameListener {T : Type} (self : VTRgbPacketProcessor T)
    (listener : Nat) : VTRgbPacketProcessor T :=
  { self with listener_ := listener }

/-- What the platform does during one call of `process`: the handles the two
buffer-creating calls write, how the decoder invokes the output callback while
`VTDecompressionSessionDecodeFrame` runs (not at all, or once with a status and
an image), the status CoreVideo answers to a lock of a buffer, and the seconds
the timer measured. -/
structure ProcessEnv (T : Type) where
  blockBuffer : CFTypeRef
  sampleBuffer : CFTypeRef
  callback : Option (OSStatus × CVPixelBufferRef)
  lockGranted : CVReturn
  elapsed : T
deriving DecidableEq, Repr

/-- The call `VTDecompressionSessionDecodeFrame(decoder, sampleBuffer, 0, &pixelBuffer, NULL)`:
the decoder runs the registered callback `decodeFrame` on the slot as the
platform dictates. -/
def VTDecompressionSessionDecodeFrame (w : CoreVideo) (slot : CVPixelBufferRef)
    (callback : Option (OSStatus × CVPixelBufferRef)) :
    CoreVideo × CVPixelBufferRef × List CVCall :=
  match callback with
  | none => (w, slot, [])
  | some (status, image) => VTRgbPacketProcessorImpl.decodeFrame w slot status image

/-- The method `VTRgbPacketProcessor::process`.  The heap returned is the heap
as `process` itself leaves it; what the listener does with the frame it is given
(it owns it from then on) is outside `process`. -/
def VTRgbPacketProcessor.process {T : Type} [AddZeroClass T] (self : VTRgbPacketProcessor T)
    (w : CoreVideo) (packet : RgbPacket) (env : ProcessEnv T) :
    VTRgbPacketProcessor T × CoreVideo × List (Event T) :=
  if self.listener_ ≠ 0 then
    let started := self.impl_.startTiming
    let blockBuffer := env.blockBuffer
    let sampleBuffer := env.sampleBuffer
    let pixelBuffer : CVPixelBufferRef := 0
    let decoded := VTDecompressionSessionDecodeFrame w pixelBuffer env.callback
    let built := VTFrame.construct decoded.1 1920 1080 4 decoded.2.1 env.lockGranted
    let frame : VTFrame :=
      { built.2.1 with timestamp := packet.timestamp, sequence := packet.sequence }
    let stopped := started.stopTiming env.elapsed
    ({ self with impl_ := stopped.1 }, built.1,
     [Event.CMBlockBufferCreateWithMemoryBlock packet.jpeg_buffer packet.jpeg_buffer_length,
      Event.CMSampleBufferCreateReady blockBuffer started.format packet.jpeg_buffer_length,
      Event.VTDecompressionSessionDecodeFrame started.decoder sampleBuffer]
       ++ decoded.2.2.map Event.cv
       ++ built.2.2.map Event.cv
       ++ [Event.onNewFrame self.listener_ Frame.Type.Color frame,
           Event.CFRelease sampleBuffer,
           Event.CFRelease blockBuffer]
       ++ stopped.2)
  else
    (self, w, [])

/-- Calls of `process` one after another, each packet with what the platform
does during its call; the events of all calls in order. -/
def VTRgbPacketProcessor.processAll {T : Type} [AddZeroClass T] (self : VTRgbPacketProcessor T)
    (w : CoreVideo) : List (RgbPacket × ProcessEnv T) →
    VTRgbPacketProcessor T × CoreVideo × List (Event T)
  | [] => (self, w, [])
  | (packet, env) :: rest =>
    let first := self.process w packet env
    let others := VTRgbPacketProcessor.processAll first.1 first.2.1 rest
    (others.1, others.2.1, first.2.2 ++ others.2.2)

/-- Calls of `stopTiming` one after another, one per measured sample. -/
def VTRgbPacketProcessorImpl.stopTimingAll {T : Type} [AddZeroClass T]
    (self : VTRgbPacketProcessorImpl T) : List T → VTRgbPacketProcessorImpl T × List (Event T)
  | [] => (self, [])
  | elapsed :: rest =>
    let first := self.stopTiming elapsed
    let others := VTRgbPacketProcessorImpl.stopTimingAll first.1 rest
    (others.1, first.2 ++ others.2)

/-! ## Reading the event list -/

/-- The frames handed to the listener, with their kind, in order. -/
def delivered {T : Type} : List (Event T) → List (Frame.Type × VTFrame)
  | [] => []
  | Event.onNewFrame _ type frame :: rest => (type, frame) :: delivered rest
  | _ :: rest => delivered rest

/-- The report lines written, in order. -/
def reports {T : Type} : List (Event T) → List (T × Nat)
  | [] => []
  | Event.report acc n :: rest => (acc, n) :: reports rest
  | _ :: rest => reports rest

/-- The image the decoder passes to the callback during a call of `process`,
`NULL` when it does not run the callback. -/
def ProcessEnv.image {T : Type} (env : ProcessEnv T) : CVPixelBufferRef :=
  match env.callback with
  | some (_, image) => image
  | none => 0

/-- A packet is successfully decoded when the decoder runs the callback with
status `noErr` and an image. -/
def ProcessEnv.decodes {T : Type} (env : ProcessEnv T) : Bool :=
  match env.callback with
  | some (status, image) => decide (status = noErr) && decide (image ≠ 0)
  | none => false

/-! ## Concrete inputs used to exercise the statements -/

/-- A heap in which every buffer has one reference, no lock, and pixels at `4096 + handle`. -/
def sampleHeap : CoreVideo :=
  fun h => { retainCount := 1, lockCount := 0, baseAddress := 4096 + h }

/-- A processor as the constructor leaves it, with handles 11 and 12. -/
def sampleImpl : VTRgbPacketProcessorImpl Nat :=
  { format := 11, decoder := 12, timing_acc := 0, timing_acc_n := 0,
    timer := { starts := 0, stops := 0 } }

/-- A heap in which every buffer has one reference and one lock already held. -/
def lockedHeap : CoreVideo :=
  fun h => { retainCount := 1, lockCount := 1, baseAddress := 4096 + h }

/-- The packet with the given sequence number. -/
def samplePacket (sequence : Nat) : RgbPacket :=
  { sequence := sequence, timestamp := 1000 + sequence, jpeg_buffer := 512,
    jpeg_buffer_length := 64 }

/-- The decoder delivers image `image` with status `status` and the lock is answered `granted`. -/
def sampleEnv (status : OSStatus) (image : CVPixelBufferRef) (granted : CVReturn) : ProcessEnv Nat :=
  { blockBuffer := 21, sampleBuffer := 22, callback := some (status, image),
    lockGranted := granted, elapsed := 3 }

/-- The decoder never runs the callback. -/
def silentEnv : ProcessEnv Nat :=
  { blockBuffer := 21, sampleBuffer := 22, callback := none, lockGranted := 0, elapsed := 3 }

/-- Packets 1 to 5; the decoder succeeds for 1, 3 and 5 (images 7, 8 and 9),
reports an error for 2 and stays silent for 4. -/
def scenario : List (RgbPacket × ProcessEnv Nat) :=
  [(samplePacket 1, sampleEnv 0 7 0), (samplePacket 2, sampleEnv (-12909) 0 0),
   (samplePacket 3, sampleEnv 0 8 0), (samplePacket 4, silentEnv),
   (samplePacket 5, sampleEnv 0 9 0)]

/-- Both create calls of the constructor report an error and leave `NULL`. -/
def failingCreateEnv : CreateEnv :=
  { formatStatus := -12710, format := 0, decoderSpecification := 31, outputConfiguration := 32,
    decoderStatus := -12913, decoder := 0 }

/-- Both create calls of the constructor succeed. -/
def sampleCreateEnv : CreateEnv :=
  { formatStatus := 0, format := 11, decoderSpecification := 31, outputConfiguration := 32,
    decoderStatus := 0, decoder := 12 }

/-! ## Shared lemmas -/

lemma CoreVideo.set_same (w : CoreVideo) (pb : CVPixelBufferRef) (s : PixelBufferState) :
    w.set pb s pb = s := by
  simp [CoreVideo.set]

lemma CoreVideo.set_other (w : CoreVideo) (pb other : CVPixelBufferRef) (s : PixelBufferState)
    (h : other ≠ pb) : w.set pb s other = w other := by
  simp [CoreVideo.set, h]

lemma CVPixelBufferLockBaseAddress_calls (s : CVState) (pb : CVPixelBufferRef)
    (granted : CVReturn) :
    (CVPixelBufferLockBaseAddress s pb granted).1.2 = s.2 ++ [CVCall.lockBaseAddress pb] := by
  unfold CVPixelBufferLockBaseAddress
  split
  · rfl
  · split <;> rfl

lemma CVPixelBufferLockBaseAddress_null (s : CVState) (granted : CVReturn) :
    (CVPixelBufferLockBaseAddress s 0 granted).1.1 = s.1 := by
  simp [CVPixelBufferLockBaseAddress]

lemma CVPixelBufferLockBaseAddress_granted (s : CVState) (pb : CVPixelBufferRef)
    (h : pb ≠ 0) :
    (CVPixelBufferLockBaseAddress s pb kCVReturnSuccess).1.1
      = s.1.set pb { s.1 pb with lockCount := (s.1 pb).lockCount + 1 } := by
  simp [CVPixelBufferLockBaseAddress, h]

lemma CVPixelBufferLockBaseAddress_refused (s : CVState) (pb : CVPixelBufferRef)
    (granted : CVReturn) (h : granted ≠ kCVReturnSuccess) :
    (CVPixelBufferLockBaseAddress s pb granted).1.1 = s.1 := by
  unfold CVPixelBufferLockBaseAddress
  split
  · rfl
  · simp [h]

lemma CVPixelBufferLockBaseAddress_retainCount (s : CVState) (pb any : CVPixelBufferRef)
    (granted : CVReturn) :
    ((CVPixelBufferLockBaseAddress s pb granted).1.1 any).retainCount = (s.1 any).retainCount := by
  unfold CVPixelBufferLockBaseAddress
  split
  · rfl
  · split
    · by_cases ha : any = pb <;> simp [CoreVideo.set, ha]
    · rfl

lemma CVPixelBufferUnlockBaseAddress_calls (s : CVState) (pb : CVPixelBufferRef) :
    (CVPixelBufferUnlockBaseAddress s pb).1.2 = s.2 ++ [CVCall.unlockBaseAddress pb] := by
  unfold CVPixelBufferUnlockBaseAddress
  split
  · rfl
  · split <;> rfl

lemma CVPixelBufferUnlockBaseAddress_retainCount (s : CVState) (pb any : CVPixelBufferRef) :
    ((CVPixelBufferUnlockBaseAddress s pb).1.1 any).retainCount = (s.1 any).retainCount := by
  unfold CVPixelBufferUnlockBaseAddress
  split
  · rfl
  · split
    · rfl
    · by_cases ha : any = pb <;> simp [CoreVideo.set, ha]

lemma CVPixelBufferRelease_calls (s : CVState) (pb : CVPixelBufferRef) :
    (CVPixelBufferRelease s pb).2 = s.2 ++ [CVCall.release pb] := by
  unfold CVPixelBufferRelease
  split <;> rfl

lemma CVPixelBufferRetain_calls (s : CVState) (pb : CVPixelBufferRef) :
    (CVPixelBufferRetain s pb).1.2 = s.2 ++ [CVCall.retain pb] := by
  unfold CVPixelBufferRetain
  split <;> rfl

lemma CVPixelBufferRetain_result (s : CVState) (pb : CVPixelBufferRef) :
    (CVPixelBufferRetain s pb).2 = pb := by
  unfold CVPixelBufferRetain
  split
  · next h => exact h.symm
  · rfl

lemma CVPixelBufferRetain_null (s : CVState) : (CVPixelBufferRetain s 0).1.1 = s.1 := by
  simp [CVPixelBufferRetain]

lemma CVPixelBufferRetain_heap (s : CVState) (pb : CVPixelBufferRef) (h : pb ≠ 0) :
    (CVPixelBufferRetain s pb).1.1
      = s.1.set pb { s.1 pb with retainCount := (s.1 pb).retainCount + 1 } := by
  simp [CVPixelBufferRetain, h]

lemma VTFrame_construct_calls (w : CoreVideo) (width height bytes_per_pixel : Nat)
    (pb : CVPixelBufferRef) (granted : CVReturn) :
    (VTFrame.construct w width height bytes_per_pixel pb granted).2.2
      = [CVCall.lockBaseAddress pb, CVCall.getBaseAddress pb] := by
  simp [VTFrame.construct, VTFrame.lockPixelBuffer, CVPixelBufferLockBaseAddress_calls,
    CVPixelBufferGetBaseAddress]

lemma VTFrame_construct_handle (w : CoreVideo) (width height bytes_per_pixel : Nat)
    (pb : CVPixelBufferRef) (granted : CVReturn) :
    (VTFrame.construct w width height bytes_per_pixel pb granted).2.1.pixelBuffer = pb := rfl

lemma VTFrame_construct_heap (w : CoreVideo) (width height bytes_per_pixel : Nat)
    (pb : CVPixelBufferRef) (granted : CVReturn) :
    (VTFrame.construct w width height bytes_per_pixel pb granted).1
      = (CVPixelBufferLockBaseAddress (w, []) pb granted).1.1 := rfl

lemma VTFrame_construct_data (w : CoreVideo) (width height bytes_per_pixel : Nat)
    (pb : CVPixelBufferRef) (granted : CVReturn) :
    (VTFrame.construct w width height bytes_per_pixel pb granted).2.1.data
      = if pb = 0 then 0
        else ((CVPixelBufferLockBaseAddress (w, []) pb granted).1.1 pb).baseAddress := rfl

lemma CVPixelBufferLockBaseAddress_baseAddress (s : CVState) (pb any : CVPixelBufferRef)
    (granted : CVReturn) :
    ((CVPixelBufferLockBaseAddress s pb granted).1.1 any).baseAddress = (s.1 any).baseAddress := by
  unfold CVPixelBufferLockBaseAddress
  split
  · rfl
  · split
    · by_cases ha : any = pb <;> simp [CoreVideo.set, ha]
    · rfl

section lemmas

variable {T : Type} [AddZeroClass T]

lemma process_of_no_listener (self : VTRgbPacketProcessor T) (w : CoreVideo) (packet : RgbPacket)
    (env : ProcessEnv T) (h : self.listener_ = 0) :
    self.process w packet env = (self, w, []) := by
  simp [VTRgbPacketProcessor.process, h]

lemma stopTimingAll_append (self : VTRgbPacketProcessorImpl T) (a b : List T) :
    self.stopTimingAll (a ++ b) =
      ((VTRgbPacketProcessorImpl.stopTimingAll (self.stopTimingAll a).1 b).1,
       (self.stopTimingAll a).2 ++
         (VTRgbPacketProcessorImpl.stopTimingAll (self.stopTimingAll a).1 b).2) := by
  induction a generalizing self with
  | nil => simp [VTRgbPacketProcessorImpl.stopTimingAll]
  | cons x xs ih =>
    simp only [List.cons_append, VTRgbPacketProcessorImpl.stopTimingAll, List.append_eq, ih,
      List.append_assoc]

/-- Below the threshold `stopTiming` only counts. -/
lemma stopTiming_below (self : VTRgbPacketProcessorImpl T) (elapsed : T)
    (h : self.timing_acc_n + 1 < 100) :
    (self.stopTiming elapsed).2 = [] ∧
    (self.stopTiming elapsed).1.timing_acc_n = self.timing_acc_n + 1 ∧
    (self.stopTiming elapsed).1.timing_acc = self.timing_acc + elapsed ∧
    (self.stopTiming elapsed).1.timer.stops = self.timer.stops + 1 ∧
    (self.stopTiming elapsed).1.timer.starts = self.timer.starts := by
  have h2 : ¬ (self.timing_acc_n + 1 ≥ 100) := by omega
  simp [VTRgbPacketProcessorImpl.stopTiming, Timer.stop, h2]

/-- At the threshold `stopTiming` reports once and resets. -/
lemma stopTiming_at (self : VTRgbPacketProcessorImpl T) (elapsed : T)
    (h : self.timing_acc_n + 1 ≥ 100) :
    (self.stopTiming elapsed).2 =
      [Event.report (self.timing_acc + elapsed) (self.timing_acc_n + 1)] ∧
    (self.stopTiming elapsed).1.timing_acc_n = 0 ∧
    (self.stopTiming elapsed).1.timing_acc = 0 := by
  simp [VTRgbPacketProcessorImpl.stopTiming, Timer.stop, h]

lemma stopTimingAll_below (samples : List T) (self : VTRgbPacketProcessorImpl T)
    (h : self.timing_acc_n + samples.length < 100) :
    (self.stopTimingAll samples).2 = [] ∧
    (self.stopTimingAll samples).1.timing_acc_n = self.timing_acc_n + samples.length ∧
    (self.stopTimingAll samples).1.timing_acc = samples.foldl (· + ·) self.timing_acc := by
  induction samples generalizing self with
  | nil => simp [VTRgbPacketProcessorImpl.stopTimingAll]
  | cons x xs ih =>
    simp only [List.length_cons] at h
    have hx := stopTiming_below self x (by omega)
    have hxs := ih (self.stopTiming x).1 (by rw [hx.2.1]; omega)
    simp only [VTRgbPacketProcessorImpl.stopTimingAll, hx.1, hxs.1, hxs.2.1, hxs.2.2, hx.2.1,
      hx.2.2.1, List.length_cons, List.append_nil, List.foldl_cons, true_and, and_true]
    omega

lemma reports_append (a b : List (Event T)) : reports (a ++ b) = reports a ++ reports b := by
  induction a with
  | nil => rfl
  | cons x xs ih => cases x <;> simp [reports, ih]

lemma reports_map_cv (calls : List CVCall) : reports (calls.map (Event.cv : CVCall → Event T)) = [] := by
  induction calls with
  | nil => rfl
  | cons x xs ih => simpa [reports] using ih

/-! ### What `process` does when a listener is registered -/

lemma delivered_append (a b : List (Event T)) : delivered (a ++ b) = delivered a ++ delivered b := by
  induction a with
  | nil => rfl
  | cons x xs ih => cases x <;> simp [delivered, ih]

lemma delivered_map_cv (calls : List CVCall) : delivered (calls.map (Event.cv : CVCall → Event T)) = [] := by
  induction calls with
  | nil => rfl
  | cons x xs ih => simpa [delivered] using ih

lemma delivered_stopTiming (self : VTRgbPacketProcessorImpl T) (elapsed : T) :
    delivered (self.stopTiming elapsed).2 = [] := by
  by_cases h : self.timing_acc_n + 1 ≥ 100 <;>
    simp [VTRgbPacketProcessorImpl.stopTiming, h, delivered]

/-- The frame that `process` hands over, the heap it leaves and the processor it leaves. -/
lemma process_of_listener (self : VTRgbPacketProcessor T) (w : CoreVideo) (packet : RgbPacket)
    (env : ProcessEnv T) (h : self.listener_ ≠ 0) :
    delivered (self.process w packet env).2.2 =
      [(Frame.Type.Color,
        { (VTFrame.construct (VTDecompressionSessionDecodeFrame w 0 env.callback).1 1920 1080 4
            (VTDecompressionSessionDecodeFrame w 0 env.callback).2.1 env.lockGranted).2.1 with
          timestamp := packet.timestamp, sequence := packet.sequence })] ∧
    (self.process w packet env).2.1 =
      (VTFrame.construct (VTDecompressionSessionDecodeFrame w 0 env.callback).1 1920 1080 4
        (VTDecompressionSessionDecodeFrame w 0 env.callback).2.1 env.lockGranted).1 ∧
    (self.process w packet env).1 =
      { self with impl_ := (self.impl_.startTiming.stopTiming env.elapsed).1 } := by
  simp [VTRgbPacketProcessor.process, h, delivered_append, delivered_map_cv, delivered,
    delivered_stopTiming]

lemma processAll_count (inputs : List (RgbPacket × ProcessEnv T)) (self : VTRgbPacketProcessor T)
    (w : CoreVideo) (h : self.listener_ ≠ 0)
    (hn : self.impl_.timing_acc_n + inputs.length < 100) :
    (self.processAll w inputs).1.impl_.timing_acc_n = self.impl_.timing_acc_n + inputs.length ∧
    (self.processAll w inputs).1.impl_.timer.starts = self.impl_.timer.starts + inputs.length ∧
    (self.processAll w inputs).1.impl_.timer.stops = self.impl_.timer.stops + inputs.length ∧
    reports (self.processAll w inputs).2.2 = [] := by
  induction inputs generalizing self w with
  | nil => simp [VTRgbPacketProcessor.processAll, reports]
  | cons x xs ih =>
    obtain ⟨packet, env⟩ := x
    simp only [List.length_cons] at hn
    have hp := (process_of_listener self w packet env h).2.2
    have hs := stopTiming_below self.impl_.startTiming env.elapsed
      (by simp only [VTRgbPacketProcessorImpl.startTiming]; omega)
    simp only [VTRgbPacketProcessorImpl.startTiming, Timer.start] at hs
    have hl : (self.process w packet env).1.listener_ ≠ 0 := by rw [hp]; exact h
    have hrep : reports (self.process w packet env).2.2 = [] := by
      have h2 : ¬ (self.impl_.timing_acc_n + 1 ≥ 100) := by omega
      simp [VTRgbPacketProcessor.process, h, VTRgbPacketProcessorImpl.stopTiming,
        VTRgbPacketProcessorImpl.startTiming, h2, reports_append, reports_map_cv, reports]
    have hrec := ih (self.process w packet env).1 (self.process w packet env).2.1 hl
      (by rw [hp]; simp only [VTRgbPacketProcessorImpl.startTiming, Timer.start, hs.2.1]; omega)
    rw [hp] at hrec
    simp only [VTRgbPacketProcessorImpl.startTiming, Timer.start, hs.2.1, hs.2.2.2.1,
      hs.2.2.2.2] at hrec
    simp only [VTRgbPacketProcessor.processAll, List.length_cons, reports_append, hrep]
    rw [hp]
    simp only [VTRgbPacketProcessorImpl.startTiming, Timer.start]
    refine ⟨by rw [hrec.1]; omega, by rw [hrec.2.1]; omega, by rw [hrec.2.2.1]; omega, ?_⟩
    rw [hrec.2.2.2]; rfl

lemma processAll_delivered (inputs : List (RgbPacket × ProcessEnv T))
    (self : VTRgbPacketProcessor T) (w : CoreVideo) (h : self.listener_ ≠ 0) :
    (delivered (self.processAll w inputs).2.2).map (fun d => (d.1, d.2.sequence)) =
      inputs.map (fun i => (Frame.Type.Color, i.1.sequence)) := by
  induction inputs generalizing self w with
  | nil => rfl
  | cons x xs ih =>
    obtain ⟨packet, env⟩ := x
    have hp := process_of_listener self w packet env h
    have hl : (self.process w packet env).1.listener_ ≠ 0 := by rw [hp.2.2]; exact h
    simp only [VTRgbPacketProcessor.processAll, delivered_append, List.map_append, List.map_cons,
      ih _ _ hl, hp.1, List.map_nil, List.singleton_append]

lemma decodeFrame_slot (w : CoreVideo) (slot : CVPixelBufferRef)
    (callback : Option (OSStatus × CVPixelBufferRef)) :
    (VTDecompressionSessionDecodeFrame w slot callback).2.1 =
      match callback with
      | some (_, image) => image
      | none => slot := by
  rcases callback with _ | ⟨status, image⟩
  · rfl
  · by_cases hi : image = 0 <;>
      simp [VTDecompressionSessionDecodeFrame, VTRgbPacketProcessorImpl.decodeFrame,
        CVPixelBufferRetain, hi]

lemma processAll_pixelBuffers (inputs : List (RgbPacket × ProcessEnv T))
    (self : VTRgbPacketProcessor T) (w : CoreVideo) (h : self.listener_ ≠ 0) :
    (delivered (self.processAll w inputs).2.2).map (fun d => d.2.pixelBuffer) =
      inputs.map (fun i => i.2.image) := by
  induction inputs generalizing self w with
  | nil => rfl
  | cons x xs ih =>
    obtain ⟨packet, env⟩ := x
    have hp := process_of_listener self w packet env h
    have hl : (self.process w packet env).1.listener_ ≠ 0 := by rw [hp.2.2]; exact h
    simp only [VTRgbPacketProcessor.processAll, delivered_append, List.map_append, List.map_cons,
      ih _ _ hl, hp.1, List.map_nil, List.singleton_append, VTFrame.construct, decodeFrame_slot,
      ProcessEnv.image]

end lemmas

/-! ## The properties -/

/-- C2 (no listener implies no-op): when `listener_` is `0`, `process` returns
the processor it was given (so `timing_acc`, `timing_acc_n` and the timer are as
before), the pixel-buffer heap it was given, and performs no call at all: nothing
is submitted to the decoder, no block or sample buffer and no frame is created,
and no report is written. -/
theorem process_without_listener_is_noop {T : Type} [AddZeroClass T]
    (self : VTRgbPacketProcessor T) (w : CoreVideo) (packet : RgbPacket) (env : ProcessEnv T)
    (h : self.listener_ = 0) :
    self.process w packet env = (self, w, []) :=
  process_of_no_listener self w packet env h

theorem process_without_listener_is_noop_witness :
    (VTRgbPacketProcessor.mk 0 sampleImpl).listener_ = 0 ∧
    (VTRgbPacketProcessor.mk 0 sampleImpl).process sampleHeap (samplePacket 1) (sampleEnv 0 7 0)
      = (VTRgbPacketProcessor.mk 0 sampleImpl, sampleHeap, []) :=
  ⟨rfl, process_without_listener_is_noop _ _ _ _ rfl⟩

/-- C4 (timing rollover): from a processor whose `timing_acc` and `timing_acc_n`
are zero, as the constructor leaves them, none of the first 99 calls of
`stopTiming` writes a report, the 100th writes exactly one (over the sum of the
100 samples and the count 100) and leaves both members zero, and after the 101st
call `timing_acc_n` is 1 and `timing_acc` is the seconds of that 101st sample
alone. -/
theorem stopTiming_rollover {T : Type} [AddZeroClass T] (self : VTRgbPacketProcessorImpl T)
    (hacc : self.timing_acc = 0) (hn : self.timing_acc_n = 0)
    (samples : List T) (hlen : samples.length = 100) (last : T) :
    (∀ k, k < 100 → reports (self.stopTimingAll (samples.take k)).2 = []) ∧
    reports (self.stopTimingAll samples).2 = [(samples.foldl (· + ·) 0, 100)] ∧
    (self.stopTimingAll samples).1.timing_acc = 0 ∧
    (self.stopTimingAll samples).1.timing_acc_n = 0 ∧
    (self.stopTimingAll (samples ++ [last])).1.timing_acc_n = 1 ∧
    (self.stopTimingAll (samples ++ [last])).1.timing_acc = last := by
  have hbelow : ∀ k, k < 100 →
      (self.stopTimingAll (samples.take k)).2 = [] ∧
      (self.stopTimingAll (samples.take k)).1.timing_acc_n = k ∧
      (self.stopTimingAll (samples.take k)).1.timing_acc = (samples.take k).foldl (· + ·) 0 := by
    intro k hk
    have hl : (samples.take k).length = k := by
      rw [List.length_take]; omega
    have := stopTimingAll_below (samples.take k) self (by rw [hn, hl]; omega)
    rw [hn, hl, hacc] at this
    simpa using this
  obtain ⟨x, hx⟩ : ∃ x, samples = samples.take 99 ++ [x] := by
    have h1 : (samples.drop 99).length = 1 := by rw [List.length_drop]; omega
    obtain ⟨x, hx⟩ := List.length_eq_one.mp h1
    exact ⟨x, by rw [← hx, List.take_append_drop]⟩
  have h99 := hbelow 99 (by omega)
  have hat := stopTiming_at (self.stopTimingAll (samples.take 99)).1 x (by rw [h99.2.1])
  have hsum : samples.foldl (· + ·) 0 = (samples.take 99).foldl (· + ·) 0 + x := by
    conv_lhs => rw [hx]
    rw [List.foldl_append]; rfl
  have hall : (self.stopTimingAll samples).2 = [Event.report (samples.foldl (· + ·) 0) 100] ∧
      (self.stopTimingAll samples).1.timing_acc = 0 ∧
      (self.stopTimingAll samples).1.timing_acc_n = 0 := by
    rw [hx, stopTimingAll_append]
    simp only [List.take_left', VTRgbPacketProcessorImpl.stopTimingAll, List.append_nil]
    rw [← hx]
    simp only [h99.1, List.nil_append, hat.1, h99.2.1, h99.2.2, hat.2.1, hat.2.2, hsum, and_self]
  refine ⟨fun k hk => by rw [(hbelow k hk).1]; rfl, by rw [hall.1]; rfl, hall.2.1, hall.2.2, ?_, ?_⟩
  · rw [stopTimingAll_append]
    simp only [VTRgbPacketProcessorImpl.stopTimingAll]
    exact (stopTiming_below _ last (by rw [hall.2.2]; omega)).2.1.trans (by rw [hall.2.2])
  · rw [stopTimingAll_append]
    simp only [VTRgbPacketProcessorImpl.stopTimingAll]
    rw [(stopTiming_below _ last (by rw [hall.2.2]; omega)).2.2.1, hall.2.1, zero_add]

theorem stopTiming_rollover_witness :
    sampleImpl.timing_acc = 0 ∧ sampleImpl.timing_acc_n = 0 ∧
    (List.replicate 100 3).length = 100 ∧
    reports (sampleImpl.stopTimingAll ((List.replicate 100 3).take 99)).2 = [] ∧
    reports (sampleImpl.stopTimingAll (List.replicate 100 3)).2
      = [((List.replicate 100 3).foldl (· + ·) 0, 100)] ∧
    (sampleImpl.stopTimingAll (List.replicate 100 3)).1.timing_acc = 0 ∧
    (sampleImpl.stopTimingAll (List.replicate 100 3)).1.timing_acc_n = 0 ∧
    (sampleImpl.stopTimingAll (List.replicate 100 3 ++ [5])).1.timing_acc_n = 1 ∧
    (sampleImpl.stopTimingAll (List.replicate 100 3 ++ [5])).1.timing_acc = 5 :=
  ⟨rfl, rfl, List.length_replicate 100 3,
   (stopTiming_rollover sampleImpl rfl rfl (List.replicate 100 3) (List.length_replicate 100 3) 5).1
     99 (by decide),
   (stopTiming_rollover sampleImpl rfl rfl (List.replicate 100 3) (List.length_replicate 100 3) 5).2⟩

/-- C3 (order preservation): when a listener is registered and every packet of
the list is successfully decoded, processing the list in order calls
`onNewFrame` exactly as many times as there are packets, every time with kind
`Color` and over the image decoded for that packet, and the sequence numbers of
the delivered frames are those of the packets, in the same order. -/
theorem onNewFrame_order_preserved {T : Type} [AddZeroClass T] (self : VTRgbPacketProcessor T)
    (w : CoreVideo) (inputs : List (RgbPacket × ProcessEnv T))
    (h : self.listener_ ≠ 0) (hok : ∀ i ∈ inputs, i.2.decodes = true) :
    (delivered (self.processAll w inputs).2.2).length = inputs.length ∧
    (∀ d ∈ delivered (self.processAll w inputs).2.2, d.1 = Frame.Type.Color) ∧
    (delivered (self.processAll w inputs).2.2).map (fun d => d.2.sequence) =
      inputs.map (fun i => i.1.sequence) ∧
    (∀ d ∈ delivered (self.processAll w inputs).2.2, d.2.pixelBuffer ≠ 0) := by
  have hmap := processAll_delivered inputs self w h
  have hlen := congrArg List.length hmap
  simp only [List.length_map] at hlen
  refine ⟨hlen, ?_, ?_, ?_⟩
  · intro d hd
    have hmem : (d.1, d.2.sequence) ∈
        (delivered (self.processAll w inputs).2.2).map (fun d => (d.1, d.2.sequence)) :=
      List.mem_map.mpr ⟨d, hd, rfl⟩
    rw [hmap] at hmem
    obtain ⟨i, _, hi⟩ := List.mem_map.mp hmem
    exact (congrArg Prod.fst hi).symm
  · have := congrArg (List.map Prod.snd) hmap
    simpa [List.map_map, Function.comp_def] using this
  · intro d hd
    have hmem : d.2.pixelBuffer ∈
        (delivered (self.processAll w inputs).2.2).map (fun d => d.2.pixelBuffer) :=
      List.mem_map.mpr ⟨d, hd, rfl⟩
    rw [processAll_pixelBuffers inputs self w h] at hmem
    obtain ⟨i, hi, hieq⟩ := List.mem_map.mp hmem
    have hdec := hok i hi
    rw [← hieq]
    unfold ProcessEnv.decodes at hdec
    unfold ProcessEnv.image
    rcases hcb : i.2.callback with _ | ⟨status, image⟩
    · rw [hcb] at hdec; simp at hdec
    · rw [hcb] at hdec
      simp only [Bool.and_eq_true, decide_eq_true_eq] at hdec
      exact hdec.2

theorem onNewFrame_order_preserved_witness :
    (VTRgbPacketProcessor.mk 1 sampleImpl).listener_ ≠ 0 ∧
    (∀ i ∈ [(samplePacket 4, sampleEnv 0 7 0), (samplePacket 2, sampleEnv 0 8 0),
        (samplePacket 9, sampleEnv 0 7 0)], i.2.decodes = true) ∧
    (delivered ((VTRgbPacketProcessor.mk 1 sampleImpl).processAll sampleHeap
        [(samplePacket 4, sampleEnv 0 7 0), (samplePacket 2, sampleEnv 0 8 0),
         (samplePacket 9, sampleEnv 0 7 0)]).2.2).map (fun d => d.2.sequence) = [4, 2, 9] :=
  ⟨by decide, by decide,
   (onNewFrame_order_preserved (VTRgbPacketProcessor.mk 1 sampleImpl) sampleHeap
      [(samplePacket 4, sampleEnv 0 7 0), (samplePacket 2, sampleEnv 0 8 0),
       (samplePacket 9, sampleEnv 0 7 0)] (by decide) (by decide)).2.2.1⟩

/-- C6 (dropped frames count toward the timing window): on a processor fresh
from its constructor, with a listener registered, processing fewer than 100
packets leaves `timing_acc_n` equal to the number of packets, whatever the
decoder did for each of them; the timer was started and stopped once per packet
and no report was written. -/
theorem timing_counts_every_packet {T : Type} [AddZeroClass T] (createEnv : CreateEnv)
    (fresh : VTRgbPacketProcessor T) (created : List (Event T))
    (hfresh : VTRgbPacketProcessor.construct T createEnv = Except.ok (fresh, created))
    (listener : Nat) (hl : listener ≠ 0) (w : CoreVideo)
    (inputs : List (RgbPacket × ProcessEnv T)) (hlen : inputs.length < 100) :
    ((fresh.setFrameListener listener).processAll w inputs).1.impl_.timing_acc_n = inputs.length ∧
    ((fresh.setFrameListener listener).processAll w inputs).1.impl_.timer.starts = inputs.length ∧
    ((fresh.setFrameListener listener).processAll w inputs).1.impl_.timer.stops = inputs.length ∧
    reports ((fresh.setFrameListener listener).processAll w inputs).2.2 = [] := by
  simp only [VTRgbPacketProcessor.construct, VTRgbPacketProcessorImpl.construct, Except.ok.injEq,
    Prod.mk.injEq] at hfresh
  obtain ⟨hf, _⟩ := hfresh
  subst hf
  have := processAll_count inputs
    (VTRgbPacketProcessor.setFrameListener
      ({ listener_ := 0,
         impl_ := { format := createEnv.format, decoder := createEnv.decoder, timing_acc := 0,
                    timing_acc_n := 0, timer := { starts := 0, stops := 0 } } } :
        VTRgbPacketProcessor T) listener) w hl
    (by simp only [VTRgbPacketProcessor.setFrameListener]; omega)
  simpa [VTRgbPacketProcessor.setFrameListener] using this

theorem timing_counts_every_packet_witness :
    VTRgbPacketProcessor.construct Nat sampleCreateEnv
      = Except.ok (VTRgbPacketProcessor.mk 0 sampleImpl,
          [Event.CMVideoFormatDescriptionCreate kCMVideoCodecType_JPEG 1920 1080,
           Event.CFDictionaryCreate 1,
           Event.CFNumberCreate kCVPixelFormatType_32BGRA,
           Event.CFNumberCreate 1920,
           Event.CFNumberCreate 1080,
           Event.CFDictionaryCreate 3,
           Event.VTDecompressionSessionCreate 11 31 32,
           Event.CFRelease 31,
           Event.CFRelease 32]) ∧
    (1 : Nat) ≠ 0 ∧ scenario.length < 100 ∧
    scenario.map (fun i => (i.1.sequence, i.2.decodes))
      = [(1, true), (2, false), (3, true), (4, false), (5, true)] ∧
    (((VTRgbPacketProcessor.mk 0 sampleImpl).setFrameListener 1).processAll sampleHeap
      scenario).1.impl_.timing_acc_n = 5 :=
  ⟨rfl, by decide, by decide, by decide,
   (timing_counts_every_packet sampleCreateEnv (VTRgbPacketProcessor.mk 0 sampleImpl) _ rfl 1
      (by decide) sampleHeap scenario (by decide)).1⟩

/-- C1 as stated does not hold: with a listener registered and a decoder that
reports an error and passes no image, the result slot stays `NULL`, and yet
`process` calls `onNewFrame` once, with a frame over the `NULL` handle. -/
theorem drop_on_null_counterexample :
    (VTRgbPacketProcessor.mk 1 sampleImpl).listener_ ≠ 0 ∧
    (VTDecompressionSessionDecodeFrame sampleHeap 0 (sampleEnv (-12909) 0 0).callback).2.1 = 0 ∧
    delivered ((VTRgbPacketProcessor.mk 1 sampleImpl).process sampleHeap (samplePacket 2)
        (sampleEnv (-12909) 0 0)).2.2
      = [(Frame.Type.Color,
          { width := 1920, height := 1080, bytes_per_pixel := 4, data := 0, timestamp := 1002,
            sequence := 2, pixelBuffer := 0 })] := by
  decide

/-- C1, amended: when a listener is registered and the decode step leaves the
result slot `NULL`, `process` still builds a `VTFrame` over the `NULL` handle and
calls `onNewFrame` exactly once for the packet, with kind `Color` and a frame
whose data pointer and handle are `NULL`; the pixel-buffer heap after `process`
is the heap before it, so no lock count and no reference count has changed. -/
theorem null_handle_is_delivered_heap_untouched {T : Type} [AddZeroClass T]
    (self : VTRgbPacketProcessor T) (w : CoreVideo) (packet : RgbPacket) (env : ProcessEnv T)
    (h : self.listener_ ≠ 0)
    (hnull : (VTDecompressionSessionDecodeFrame w 0 env.callback).2.1 = 0) :
    delivered (self.process w packet env).2.2
      = [(Frame.Type.Color,
          { width := 1920, height := 1080, bytes_per_pixel := 4, data := 0,
            timestamp := packet.timestamp, sequence := packet.sequence, pixelBuffer := 0 })] ∧
    (self.process w packet env).2.1 = w := by
  have hp := process_of_listener self w packet env h
  have hw : (VTDecompressionSessionDecodeFrame w 0 env.callback).1 = w := by
    rcases hcb : env.callback with _ | ⟨status, image⟩
    · rfl
    · rw [hcb] at hnull
      by_cases hi : image = 0
      · simp [VTDecompressionSessionDecodeFrame, VTRgbPacketProcessorImpl.decodeFrame,
          CVPixelBufferRetain, hi]
      · simp [VTDecompressionSessionDecodeFrame, VTRgbPacketProcessorImpl.decodeFrame,
          CVPixelBufferRetain, hi] at hnull
  rw [hp.1, hp.2.1, hnull, hw]
  simp [VTFrame.construct, VTFrame.lockPixelBuffer, CVPixelBufferLockBaseAddress,
    CVPixelBufferGetBaseAddress, Frame.construct]

theorem null_handle_is_delivered_heap_untouched_witness :
    (VTRgbPacketProcessor.mk 1 sampleImpl).listener_ ≠ 0 ∧
    (VTDecompressionSessionDecodeFrame sampleHeap 0 silentEnv.callback).2.1 = 0 ∧
    ((VTRgbPacketProcessor.mk 1 sampleImpl).process sampleHeap (samplePacket 4) silentEnv).2.1
      = sampleHeap :=
  ⟨by decide, by decide,
   (null_handle_is_delivered_heap_untouched (VTRgbPacketProcessor.mk 1 sampleImpl) sampleHeap
      (samplePacket 4) silentEnv (by decide) (by decide)).2⟩

/-- C7 as stated does not hold: the decoder delivers image 7, the lock of it is
refused, and `process` still calls `onNewFrame` with a frame over image 7, makes
no release call, and leaves on image 7 the reference that the callback added. -/
theorem lock_failure_counterexample :
    (sampleEnv 0 7 (-6662)).lockGranted ≠ kCVReturnSuccess ∧
    delivered ((VTRgbPacketProcessor.mk 1 sampleImpl).process sampleHeap (samplePacket 3)
        (sampleEnv 0 7 (-6662))).2.2
      = [(Frame.Type.Color,
          { width := 1920, height := 1080, bytes_per_pixel := 4, data := 4103, timestamp := 1003,
            sequence := 3, pixelBuffer := 7 })] ∧
    Event.cv (CVCall.release 7) ∉ ((VTRgbPacketProcessor.mk 1 sampleImpl).process sampleHeap
        (samplePacket 3) (sampleEnv 0 7 (-6662))).2.2 ∧
    (((VTRgbPacketProcessor.mk 1 sampleImpl).process sampleHeap (samplePacket 3)
        (sampleEnv 0 7 (-6662))).2.1 7).retainCount = (sampleHeap 7).retainCount + 1 := by
  decide

/-- C7, amended: when the decoder delivers an image and locking it fails, the
status of the lock is discarded: the `VTFrame` is built all the same, over that
image and the address `CVPixelBufferGetBaseAddress` gives for it, and `process`
calls `onNewFrame` exactly once with it; `process` makes no release call on the
image, whose reference added by the callback is still held and whose lock count
is unchanged when `process` returns. -/
theorem lock_failure_is_ignored {T : Type} [AddZeroClass T] (self : VTRgbPacketProcessor T)
    (w : CoreVideo) (packet : RgbPacket) (env : ProcessEnv T)
    (status : OSStatus) (image : CVPixelBufferRef)
    (h : self.listener_ ≠ 0) (hcb : env.callback = some (status, image)) (himg : image ≠ 0)
    (hlock : env.lockGranted ≠ kCVReturnSuccess) :
    delivered (self.process w packet env).2.2
      = [(Frame.Type.Color,
          { width := 1920, height := 1080, bytes_per_pixel := 4, data := (w image).baseAddress,
            timestamp := packet.timestamp, sequence := packet.sequence, pixelBuffer := image })] ∧
    Event.cv (CVCall.release image) ∉ (self.process w packet env).2.2 ∧
    ((self.process w packet env).2.1 image).retainCount = (w image).retainCount + 1 ∧
    ((self.process w packet env).2.1 image).lockCount = (w image).lockCount := by
  have hp := process_of_listener self w packet env h
  refine ⟨?_, ?_, ?_, ?_⟩
  · rw [hp.1]
    simp [hcb, hlock, himg, VTDecompressionSessionDecodeFrame,
      VTRgbPacketProcessorImpl.decodeFrame, CVPixelBufferRetain, VTFrame.construct,
      VTFrame.lockPixelBuffer, CVPixelBufferLockBaseAddress, CVPixelBufferGetBaseAddress,
      Frame.construct, CoreVideo.set]
  · by_cases hn : self.impl_.startTiming.timing_acc_n + 1 ≥ 100 <;>
      simp [VTRgbPacketProcessor.process, h, hcb, hn, VTDecompressionSessionDecodeFrame,
        VTRgbPacketProcessorImpl.decodeFrame, VTRgbPacketProcessorImpl.stopTiming,
        VTFrame_construct_calls, CVPixelBufferRetain_calls]
  · rw [hp.2.1]
    simp [hcb, hlock, himg, VTDecompressionSessionDecodeFrame,
      VTRgbPacketProcessorImpl.decodeFrame, CVPixelBufferRetain, VTFrame.construct,
      VTFrame.lockPixelBuffer, CVPixelBufferLockBaseAddress, CVPixelBufferGetBaseAddress,
      CoreVideo.set]
  · rw [hp.2.1]
    simp [hcb, hlock, himg, VTDecompressionSessionDecodeFrame,
      VTRgbPacketProcessorImpl.decodeFrame, CVPixelBufferRetain, VTFrame.construct,
      VTFrame.lockPixelBuffer, CVPixelBufferLockBaseAddress, CVPixelBufferGetBaseAddress,
      CoreVideo.set]

theorem lock_failure_is_ignored_witness :
    (VTRgbPacketProcessor.mk 1 sampleImpl).listener_ ≠ 0 ∧
    (sampleEnv 0 8 (-6660)).callback = some (0, 8) ∧ (8 : CVPixelBufferRef) ≠ 0 ∧
    (sampleEnv 0 8 (-6660)).lockGranted ≠ kCVReturnSuccess ∧
    (((VTRgbPacketProcessor.mk 1 sampleImpl).process sampleHeap (samplePacket 5)
        (sampleEnv 0 8 (-6660))).2.1 8).retainCount = (sampleHeap 8).retainCount + 1 :=
  ⟨by decide, rfl, by decide, by decide,
   (lock_failure_is_ignored (VTRgbPacketProcessor.mk 1 sampleImpl) sampleHeap (samplePacket 5)
      (sampleEnv 0 8 (-6660)) 0 8 (by decide) rfl (by decide) (by decide)).2.2.1⟩

/-- C8 as stated does not hold: both create calls report an error and leave
`NULL`, and the constructor still completes and hands its owner a processor. -/
theorem construction_failure_counterexample :
    failingCreateEnv.formatStatus ≠ noErr ∧ failingCreateEnv.decoderStatus ≠ noErr ∧
    VTRgbPacketProcessor.construct Nat failingCreateEnv
      = Except.ok
          ({ listener_ := 0,
             impl_ := { format := 0, decoder := 0, timing_acc := 0, timing_acc_n := 0,
                        timer := { starts := 0, stops := 0 } } },
           [Event.CMVideoFormatDescriptionCreate kCMVideoCodecType_JPEG 1920 1080,
            Event.CFDictionaryCreate 1,
            Event.CFNumberCreate kCVPixelFormatType_32BGRA,
            Event.CFNumberCreate 1920,
            Event.CFNumberCreate 1080,
            Event.CFDictionaryCreate 3,
            Event.VTDecompressionSessionCreate 0 31 32,
            Event.CFRelease 31,
            Event.CFRelease 32]) :=
  ⟨by decide, by decide, rfl⟩

/-- C8, amended: construction never fails.  Whatever statuses the creation of
the format description and of the decompression session return, the constructor
completes: the processor has no listener, zero `timing_acc` and `timing_acc_n`,
and holds the handles the two calls left; the statuses are not consulted and no
failure reaches the owner. -/
theorem construction_always_completes (T : Type) [AddZeroClass T] (env : CreateEnv) :
    VTRgbPacketProcessor.construct T env
      = Except.ok
          ({ listener_ := 0,
             impl_ := { format := env.format, decoder := env.decoder, timing_acc := 0,
                        timing_acc_n := 0, timer := { starts := 0, stops := 0 } } },
           [Event.CMVideoFormatDescriptionCreate kCMVideoCodecType_JPEG 1920 1080,
            Event.CFDictionaryCreate 1,
            Event.CFNumberCreate kCVPixelFormatType_32BGRA,
            Event.CFNumberCreate 1920,
            Event.CFNumberCreate 1080,
            Event.CFDictionaryCreate 3,
            Event.VTDecompressionSessionCreate env.format env.decoderSpecification env.outputConfiguration,
            Event.CFRelease env.decoderSpecification,
            Event.CFRelease env.outputConfiguration]) :=
  rfl

/-- C9 as stated does not hold: called with a failure status and image 7,
`decodeFrame` stores image 7 in the slot, which was `NULL`, and adds a reference
to it. -/
theorem decodeFrame_failure_counterexample :
    (-12909 : OSStatus) ≠ noErr ∧
    (VTRgbPacketProcessorImpl.decodeFrame sampleHeap 0 (-12909) 7).2.1 = 7 ∧
    ((VTRgbPacketProcessorImpl.decodeFrame sampleHeap 0 (-12909) 7).1 7).retainCount
      = (sampleHeap 7).retainCount + 1 := by
  decide

/-- C9, amended: for every call of `decodeFrame`, whatever the status, the slot
afterwards holds the image argument; a non-null image has had its reference
count raised by exactly one, a null image leaves the heap as it was; no other
buffer and no lock count changes, and the one call made is the retain.  The
status plays no part: a failure status gives the same result as `noErr`. -/
theorem decodeFrame_stores_whatever_status (w : CoreVideo) (slot : CVPixelBufferRef)
    (status : OSStatus) (image : CVPixelBufferRef) :
    (VTRgbPacketProcessorImpl.decodeFrame w slot status image).2.1 = image ∧
    (image ≠ 0 → ((VTRgbPacketProcessorImpl.decodeFrame w slot status image).1 image).retainCount
      = (w image).retainCount + 1) ∧
    (image = 0 → (VTRgbPacketProcessorImpl.decodeFrame w slot status image).1 = w) ∧
    (∀ other, other ≠ image →
      (VTRgbPacketProcessorImpl.decodeFrame w slot status image).1 other = w other) ∧
    (∀ any, ((VTRgbPacketProcessorImpl.decodeFrame w slot status image).1 any).lockCount
      = (w any).lockCount) ∧
    (VTRgbPacketProcessorImpl.decodeFrame w slot status image).2.2 = [CVCall.retain image] ∧
    VTRgbPacketProcessorImpl.decodeFrame w slot status image
      = VTRgbPacketProcessorImpl.decodeFrame w slot noErr image := by
  by_cases hi : image = 0
  · simp [VTRgbPacketProcessorImpl.decodeFrame, CVPixelBufferRetain, hi]
  · refine ⟨?_, ?_, ?_, ?_, ?_, ?_, rfl⟩
    · simp [VTRgbPacketProcessorImpl.decodeFrame, CVPixelBufferRetain, hi]
    · intro _
      simp [VTRgbPacketProcessorImpl.decodeFrame, CVPixelBufferRetain, hi, CoreVideo.set]
    · intro h0
      exact absurd h0 hi
    · intro other ho
      simp [VTRgbPacketProcessorImpl.decodeFrame, CVPixelBufferRetain, hi, CoreVideo.set, ho]
    · intro any
      by_cases ha : any = image <;>
        simp [VTRgbPacketProcessorImpl.decodeFrame, CVPixelBufferRetain, hi, CoreVideo.set, ha]
    · simp [VTRgbPacketProcessorImpl.decodeFrame, CVPixelBufferRetain_calls]

theorem decodeFrame_stores_whatever_status_witness :
    (VTRgbPacketProcessorImpl.decodeFrame sampleHeap 0 noErr 7).2.1 = 7 ∧
    (VTRgbPacketProcessorImpl.decodeFrame sampleHeap 0 (-12909) 0).2.1 = 0 :=
  ⟨(decodeFrame_stores_whatever_status sampleHeap 0 noErr 7).1,
   (decodeFrame_stores_whatever_status sampleHeap 0 (-12909) 0).1⟩

/-- C10 as stated does not hold for every handle: on buffer 5, which holds one
lock taken elsewhere, with the lock refused, constructing a `VTFrame` locks
nothing (the lock count stays 1) and destroying it still unlocks, so the lock
count after construction and destruction is 0, not the 1 it was before. -/
theorem VTFrame_lifecycle_counterexample :
    (5 : CVPixelBufferRef) ≠ 0 ∧ (-6662 : CVReturn) ≠ kCVReturnSuccess ∧
    (lockedHeap 5).lockCount = 1 ∧
    ((VTFrame.construct lockedHeap 1920 1080 4 5 (-6662)).1 5).lockCount = 1 ∧
    ((VTFrame.destruct (VTFrame.construct lockedHeap 1920 1080 4 5 (-6662)).1
        (VTFrame.construct lockedHeap 1920 1080 4 5 (-6662)).2.1).1 5).lockCount = 0 := by
  decide

/-- C10, amended: for every handle, the constructor of `VTFrame` makes exactly
one lock call, whose status it discards, and then reads the base address; it
makes no retain call and changes no reference count; the destructor makes
exactly one unlock call and then exactly one release call, in that order.  On a
buffer whose lock is granted, construction raises the lock count by one and
construction followed by destruction brings it back to what it was before
construction; on a buffer whose lock is refused construction leaves the heap as
it was.  On a buffer that holds a reference, construction followed by
destruction lowers the reference count by exactly one. -/
theorem VTFrame_lifecycle_balanced (w : CoreVideo) (width height bytes_per_pixel : Nat)
    (pixelBuffer : CVPixelBufferRef) (granted : CVReturn) :
    (VTFrame.construct w width height bytes_per_pixel pixelBuffer granted).2.2
      = [CVCall.lockBaseAddress pixelBuffer, CVCall.getBaseAddress pixelBuffer] ∧
    (VTFrame.destruct (VTFrame.construct w width height bytes_per_pixel pixelBuffer granted).1
        (VTFrame.construct w width height bytes_per_pixel pixelBuffer granted).2.1).2
      = [CVCall.unlockBaseAddress pixelBuffer, CVCall.release pixelBuffer] ∧
    (∀ any, ((VTFrame.construct w width height bytes_per_pixel pixelBuffer granted).1
        any).retainCount = (w any).retainCount) ∧
    (pixelBuffer ≠ 0 → granted = kCVReturnSuccess →
      ((VTFrame.construct w width height bytes_per_pixel pixelBuffer granted).1
          pixelBuffer).lockCount = (w pixelBuffer).lockCount + 1 ∧
      ((VTFrame.destruct (VTFrame.construct w width height bytes_per_pixel pixelBuffer granted).1
          (VTFrame.construct w width height bytes_per_pixel pixelBuffer granted).2.1).1
          pixelBuffer).lockCount = (w pixelBuffer).lockCount) ∧
    (granted ≠ kCVReturnSuccess →
      (VTFrame.construct w width height bytes_per_pixel pixelBuffer granted).1 = w) ∧
    (pixelBuffer ≠ 0 → 0 < (w pixelBuffer).retainCount →
      ((VTFrame.destruct (VTFrame.construct w width height bytes_per_pixel pixelBuffer granted).1
          (VTFrame.construct w width height bytes_per_pixel pixelBuffer granted).2.1).1
          pixelBuffer).retainCount + 1 = (w pixelBuffer).retainCount) := by
  refine ⟨VTFrame_construct_calls w width height bytes_per_pixel pixelBuffer granted, ?_, ?_, ?_,
    ?_, ?_⟩
  · simp [VTFrame.destruct, VTFrame_construct_handle, CVPixelBufferUnlockBaseAddress_calls,
      CVPixelBufferRelease_calls]
  · intro any
    rw [VTFrame_construct_heap]
    exact CVPixelBufferLockBaseAddress_retainCount (w, []) pixelBuffer any granted
  · intro hpb hgrant
    subst hgrant
    rw [VTFrame_construct_heap, CVPixelBufferLockBaseAddress_granted _ _ hpb]
    refine ⟨by simp [CoreVideo.set_same], ?_⟩
    simp [VTFrame.destruct, VTFrame_construct_handle, CVPixelBufferUnlockBaseAddress,
      CVPixelBufferRelease, hpb, CoreVideo.set_same]
  · intro hgrant
    rw [VTFrame_construct_heap]
    exact CVPixelBufferLockBaseAddress_refused (w, []) pixelBuffer granted hgrant
  · intro hpb href
    have hlock := CVPixelBufferLockBaseAddress_retainCount (w, []) pixelBuffer pixelBuffer granted
    have hunlock := CVPixelBufferUnlockBaseAddress_retainCount
      ((CVPixelBufferLockBaseAddress (w, []) pixelBuffer granted).1.1, []) pixelBuffer pixelBuffer
    simp only [VTFrame.destruct, VTFrame_construct_handle, VTFrame_construct_heap,
      CVPixelBufferRelease, hpb, if_false, CoreVideo.set_same, hunlock, hlock]
    omega

theorem VTFrame_lifecycle_balanced_witness :
    (7 : CVPixelBufferRef) ≠ 0 ∧ (0 : CVReturn) = kCVReturnSuccess ∧
    0 < (sampleHeap 7).retainCount ∧ (-6662 : CVReturn) ≠ kCVReturnSuccess ∧
    ((VTFrame.construct sampleHeap 1920 1080 4 7 0).1 7).lockCount
      = (sampleHeap 7).lockCount + 1 ∧
    ((VTFrame.destruct (VTFrame.construct sampleHeap 1920 1080 4 7 0).1
        (VTFrame.construct sampleHeap 1920 1080 4 7 0).2.1).1 7).lockCount
      = (sampleHeap 7).lockCount ∧
    (VTFrame.construct lockedHeap 1920 1080 4 5 (-6662)).1 = lockedHeap ∧
    ((VTFrame.destruct (VTFrame.construct sampleHeap 1920 1080 4 7 0).1
        (VTFrame.construct sampleHeap 1920 1080 4 7 0).2.1).1 7).retainCount + 1
      = (sampleHeap 7).retainCount :=
  ⟨by decide, rfl, by decide, by decide,
   ((VTFrame_lifecycle_balanced sampleHeap 1920 1080 4 7 0).2.2.2.1 (by decide) rfl).1,
   ((VTFrame_lifecycle_balanced sampleHeap 1920 1080 4 7 0).2.2.2.1 (by decide) rfl).2,
   (VTFrame_lifecycle_balanced lockedHeap 1920 1080 4 5 (-6662)).2.2.2.2.1 (by decide),
   (VTFrame_lifecycle_balanced sampleHeap 1920 1080 4 7 0).2.2.2.2.2 (by decide) (by decide)⟩

end libfreenect2
